import Mathlib

/-!
Shallow embedding of the remote-storage core of `mxalis/clickhouse-backup`:
the `config` package (configuration structures, validation, derived
accessors), `TableMetadata.Load` from the metadata package, and the
Tencent-COS storage adapter (`StatFile`, `DeleteFile`, `GetFileReader`,
`Walk`, `parseTime`).  External library behaviour (Go stdlib `path`,
`strings`, the COS SDK object-store semantics, the AWS SDK storage-class
enumeration) is modelled explicitly; each such model carries a comment
saying what it models.
-/

set_option maxHeartbeats 1000000
set_option maxRecDepth 8000

namespace CHB

/-- A single quote character, used inside Go format strings. -/
def sq : String := "\x27"

/-! ## Models of Go standard-library helpers -/

/-- Splits a character list at every `/` (the slash-splitting used by the
`path.Clean` model; structurally recursive so the kernel can evaluate it). -/
def splitSlash : List Char → List (List Char)
  | [] => [[]]
  | c :: cs =>
    if c = Char.ofNat 47 then [] :: splitSlash cs
    else
      match splitSlash cs with
      | [] => [[c]]
      | g :: gs => (c :: g) :: gs

/-- Whether the character list `pat` is an initial segment of `str`. -/
def listIsLead : List Char → List Char → Bool
  | [], _ => true
  | _ :: _, [] => false
  | a :: as, b :: bs => a == b && listIsLead as bs

/-- Model of Go `strings.HasPrefix` / the front test of `TrimPrefix`,
over character lists. -/
def goHasLead (s pat : String) : Bool := listIsLead pat.toList s.toList

/-- Drops the first `n` characters of a string (all strings in these
claims are ASCII, so character and byte counts agree). -/
def goDropChars (s : String) (n : Nat) : String := String.mk (s.toList.drop n)

/-- Model of Go `path.Clean`: repeatedly eliminates empty and `.` path
elements, resolves `..` against preceding elements, and drops any trailing
slash; the empty path cleans to `.`. -/
def pathClean (p : String) : String :=
  if p = "" then "."
  else
    let rooted := goHasLead p "/"
    let comps := ((splitSlash p.toList).map String.mk).filter (fun c => c != "" && c != ".")
    let out := comps.foldl
      (fun acc c =>
        if c == ".." then
          match acc with
          | [] => if rooted then [] else [".."]
          | a :: restA => if a == ".." then c :: a :: restA else restA
        else c :: acc) []
    let body := String.intercalate "/" out.reverse
    if rooted then (if body == "" then "/" else "/" ++ body)
    else (if body == "" then "." else body)

/-- Model of Go `path.Join`: joins the non-empty elements with `/` and
cleans the result; all-empty input yields the empty string. -/
def pathJoin (elems : List String) : String :=
  let es := elems.filter (fun e => e != "")
  if es.isEmpty then "" else pathClean (String.intercalate "/" es)

/-- Model of Go `strings.TrimPrefix`: drops `pfx` from the front of `s`
when present, otherwise returns `s` unchanged. -/
def goTrimLead (s pfx : String) : String :=
  if goHasLead s pfx then goDropChars s pfx.toList.length else s

/-- Model of Go `strings.ToUpper` (ASCII-faithful), character by
character over the string's character list. -/
def goToUpper (s : String) : String := String.mk (s.toList.map Char.toUpper)

/-! ## The `config` package (src/unnamed/part_000) -/

/-- ArchiveExtensions - list of availiable compression formats and
associated file extensions (the Go map literal, as a lookup function;
`none` models a key absent from the map). -/
def ArchiveExtensions (k : String) : Option String :=
  if k = "tar" then some "tar"
  else if k = "lz4" then some "tar.lz4"
  else if k = "bzip2" then some "tar.bz2"
  else if k = "gzip" then some "tar.gz"
  else if k = "sz" then some "tar.sz"
  else if k = "xz" then some "tar.xz"
  else none

/-- GeneralConfig - general setting section. -/
structure GeneralConfig where
  RemoteStorage : String
  MaxFileSize : Int
  DisableProgressBar : Bool
  BackupsToKeepLocal : Int
  BackupsToKeepRemote : Int
  LogLevel : String
  deriving DecidableEq, Repr

/-- GCSConfig - GCS settings section. -/
structure GCSConfig where
  CredentialsFile : String
  CredentialsJSON : String
  Bucket : String
  Path : String
  CompressionLevel : Int
  CompressionFormat : String
  deriving DecidableEq, Repr

/-- AzureBlobConfig - Azure Blob settings section. -/
structure AzureBlobConfig where
  EndpointSuffix : String
  AccountName : String
  AccountKey : String
  SharedAccessSignature : String
  Container : String
  Path : String
  CompressionLevel : Int
  CompressionFormat : String
  SSEKey : String
  deriving DecidableEq, Repr

/-- S3Config - s3 settings section. -/
structure S3Config where
  AccessKey : String
  SecretKey : String
  Bucket : String
  Endpoint : String
  Region : String
  ACL : String
  ForcePathStyle : Bool
  Path : String
  DisableSSL : Bool
  PartSize : Int
  CompressionLevel : Int
  CompressionFormat : String
  SSE : String
  DisableCertVerification : Bool
  StorageClass : String
  deriving DecidableEq, Repr

/-- COSConfig - cos settings section. -/
structure COSConfig where
  RowURL : String
  Timeout : String
  SecretID : String
  SecretKey : String
  Path : String
  CompressionFormat : String
  CompressionLevel : Int
  deriving DecidableEq, Repr

/-- FTPConfig - ftp settings section. -/
structure FTPConfig where
  Address : String
  Timeout : String
  Username : String
  Password : String
  TLS : Bool
  Path : String
  CompressionFormat : String
  CompressionLevel : Int
  deriving DecidableEq, Repr

/-- ClickHouseConfig - clickhouse settings section. -/
structure ClickHouseConfig where
  Username : String
  Password : String
  Host : String
  Port : Nat
  DiskMapping : List (String × String)
  SkipTables : List String
  Timeout : String
  FreezeByPart : Bool
  Secure : Bool
  SkipVerify : Bool
  SyncReplicatedTables : Bool
  deriving DecidableEq, Repr

/-- APIConfig - API settings section. -/
structure APIConfig where
  ListenAddr : String
  EnableMetrics : Bool
  EnablePprof : Bool
  Username : String
  Password : String
  Secure : Bool
  CertificateFile : String
  PrivateKeyFile : String
  deriving DecidableEq, Repr

/-- Config - config file format. -/
structure Config where
  General : GeneralConfig
  ClickHouse : ClickHouseConfig
  S3 : S3Config
  GCS : GCSConfig
  COS : COSConfig
  API : APIConfig
  FTP : FTPConfig
  AzureBlob : AzureBlobConfig
  deriving DecidableEq, Repr

/-- `Config.GetArchiveExtension`: the Go `switch` on the remote-storage
selector; the Go map index `ArchiveExtensions[fmt]` yields the map's zero
value `""` for an absent key, and the switch `default` returns `""`. -/
def Config.GetArchiveExtension (cfg : Config) : String :=
  if cfg.General.RemoteStorage = "s3" then
    (ArchiveExtensions cfg.S3.CompressionFormat).getD ""
  else if cfg.General.RemoteStorage = "gcs" then
    (ArchiveExtensions cfg.GCS.CompressionFormat).getD ""
  else if cfg.General.RemoteStorage = "cos" then
    (ArchiveExtensions cfg.COS.CompressionFormat).getD ""
  else if cfg.General.RemoteStorage = "ftp" then
    (ArchiveExtensions cfg.FTP.CompressionFormat).getD ""
  else if cfg.General.RemoteStorage = "azblob" then
    (ArchiveExtensions cfg.AzureBlob.CompressionFormat).getD ""
  else ""

/-- `Config.GetCompressionFormat`: the Go `switch` on the remote-storage
selector, with `default` returning `"unknown"`. -/
def Config.GetCompressionFormat (cfg : Config) : String :=
  if cfg.General.RemoteStorage = "s3" then cfg.S3.CompressionFormat
  else if cfg.General.RemoteStorage = "gcs" then cfg.GCS.CompressionFormat
  else if cfg.General.RemoteStorage = "cos" then cfg.COS.CompressionFormat
  else if cfg.General.RemoteStorage = "ftp" then cfg.FTP.CompressionFormat
  else if cfg.General.RemoteStorage = "azblob" then cfg.AzureBlob.CompressionFormat
  else if cfg.General.RemoteStorage = "none" then "none"
  else "unknown"

/-- Modelled from the spec: the AWS SDK's fixed enumerated set of S3
storage classes (`s3.StorageClass_Values()`); the SDK is external to the
repository.  The spec calls it "the fixed enumerated set of valid storage
classes" with `STANDARD` the default. -/
def s3StorageClassValues : List String :=
  ["STANDARD", "REDUCED_REDUNDANCY", "STANDARD_IA", "ONEZONE_IA",
   "INTELLIGENT_TIERING", "GLACIER", "DEEP_ARCHIVE"]

/-- Outcomes of the external checks `ValidateConfig` delegates to Go
libraries: `time.ParseDuration` (result `none` = parsed fine, `some e` =
the parse error) and `tls.LoadX509KeyPair` (likewise). -/
structure ExternalChecks where
  parseDuration : String → Option String
  loadKeyPair : String → String → Option String

/-- The compression-format check at the head of `ValidateConfig`
(lines 192-196 of the config source). -/
def compressionCheck (cfg : Config) : Option String :=
  if cfg.GetCompressionFormat = "none" then none
  else if (ArchiveExtensions cfg.GetCompressionFormat).isNone then
    some (sq ++ cfg.GetCompressionFormat ++ sq ++ " is unsupported compression format")
  else none

/-- The error message produced for a bad S3 storage class. -/
def badStorageClassMsg (sc : String) : String :=
  sq ++ sc ++ sq ++ " is bad S3_STORAGE_CLASS, select one of: "
    ++ String.intercalate ", " s3StorageClassValues

/-- The storage-class loop of `ValidateConfig` (lines 206-216): the
upper-cased configured value must equal one of the enumerated classes. -/
def storageClassCheck (cfg : Config) : Option String :=
  if s3StorageClassValues.any (fun sc => goToUpper cfg.S3.StorageClass == sc) then none
  else some (badStorageClassMsg cfg.S3.StorageClass)

/-- `ValidateConfig`: the checks in source order; the first failing check
returns its error. -/
def ValidateConfig (ext : ExternalChecks) (cfg : Config) : Option String :=
  match compressionCheck cfg with
  | some e => some e
  | none =>
    match ext.parseDuration cfg.ClickHouse.Timeout with
    | some e => some e
    | none =>
      match ext.parseDuration cfg.COS.Timeout with
      | some e => some e
      | none =>
        match ext.parseDuration cfg.FTP.Timeout with
        | some e => some e
        | none =>
          match storageClassCheck cfg with
          | some e => some e
          | none =>
            if cfg.API.Secure then
              ext.loadKeyPair cfg.API.CertificateFile cfg.API.PrivateKeyFile
            else none

/-- `DefaultConfig` from the source; Go zero values for fields the source
leaves unset. -/
def DefaultConfig : Config :=
  { General :=
      { RemoteStorage := "s3"
        MaxFileSize := 1024 * 1024 * 1024 * 1024
        DisableProgressBar := false
        BackupsToKeepLocal := 0
        BackupsToKeepRemote := 0
        LogLevel := "info" }
    ClickHouse :=
      { Username := "default"
        Password := ""
        Host := "localhost"
        Port := 9000
        DiskMapping := []
        SkipTables := ["system.*"]
        Timeout := "5m"
        FreezeByPart := false
        Secure := false
        SkipVerify := false
        SyncReplicatedTables := true }
    AzureBlob :=
      { EndpointSuffix := "core.windows.net"
        AccountName := ""
        AccountKey := ""
        SharedAccessSignature := ""
        Container := ""
        Path := ""
        CompressionLevel := 1
        CompressionFormat := "tar"
        SSEKey := "" }
    S3 :=
      { AccessKey := ""
        SecretKey := ""
        Bucket := ""
        Endpoint := ""
        Region := "us-east-1"
        ACL := "private"
        ForcePathStyle := false
        Path := ""
        DisableSSL := false
        PartSize := 512 * 1024 * 1024
        CompressionLevel := 1
        CompressionFormat := "tar"
        SSE := ""
        DisableCertVerification := false
        StorageClass := "STANDARD" }
    GCS :=
      { CredentialsFile := ""
        CredentialsJSON := ""
        Bucket := ""
        Path := ""
        CompressionLevel := 1
        CompressionFormat := "tar" }
    COS :=
      { RowURL := ""
        Timeout := "2m"
        SecretID := ""
        SecretKey := ""
        Path := ""
        CompressionFormat := "tar"
        CompressionLevel := 1 }
    API :=
      { ListenAddr := "localhost:7171"
        EnableMetrics := true
        EnablePprof := false
        Username := ""
        Password := ""
        Secure := false
        CertificateFile := ""
        PrivateKeyFile := "" }
    FTP :=
      { Address := ""
        Timeout := "2m"
        Username := ""
        Password := ""
        TLS := false
        Path := ""
        CompressionFormat := "tar"
        CompressionLevel := 1 } }

/-- The outcome of `ioutil.ReadFile` when it fails: the error message and
whether `os.IsNotExist` holds for it. -/
structure ReadErr where
  msg : String
  isNotExist : Bool

/-- The external collaborators of `LoadConfig`: the file read outcome,
the yaml overlay (`yaml.Unmarshal` into the current config), and the
environment overlay (`envconfig.Process`). -/
structure LoadEnv where
  readFile : Except ReadErr (List Nat)
  unmarshal : List Nat → Config → Except String Config
  envProcess : Config → Except String Config

/-- The file-read stage of `LoadConfig`: a read error is fatal unless
`os.IsNotExist` holds for it, in which case the yaml bytes stay nil. -/
def readConfigYaml (env : LoadEnv) : Except String (List Nat) :=
  match env.readFile with
  | Except.error e =>
    if e.isNotExist then Except.ok []
    else Except.error ("can" ++ sq ++ "t open config file: " ++ e.msg)
  | Except.ok b => Except.ok b

/-- `LoadConfig`: defaults, then file overlay (a missing file is
tolerated and leaves the yaml bytes nil), then environment overlay, then
validation.  Mirrors the Go pair return `(*Config, error)` as
`Option Config × Option String`; note the final source line
`return cfg, ValidateConfig(cfg)`. -/
def LoadConfig (ext : ExternalChecks) (env : LoadEnv) : Option Config × Option String :=
  match readConfigYaml env with
  | Except.error e => (none, some e)
  | Except.ok bytes =>
    match env.unmarshal bytes DefaultConfig with
    | Except.error e => (none, some ("can" ++ sq ++ "t parse config file: " ++ e))
    | Except.ok cfg1 =>
      match env.envProcess cfg1 with
      | Except.error e => (none, some e)
      | Except.ok cfg2 => (some cfg2, ValidateConfig ext cfg2)

/-! ## The COS storage adapter (src/pkg/metadata/load.go, `new_storage`) -/

/-- Go `time.Time`, abstractly: only construction and the zero value
matter to these claims. -/
structure GoTime where
  sec : Int
  deriving DecidableEq, Repr

/-- The Go zero `time.Time`. -/
def zeroTime : GoTime := ⟨0⟩

/-- The ordered layout list of `parseTime` (the custom GMT layout, then
`time.RFC850`, `time.ANSIC`, `time.RFC3339`). -/
def timeFormat0 : String := "Mon, 02 Jan 2006 15:04:05 GMT"

/-- `time.RFC850`. -/
def timeFormat1 : String := "Monday, 02-Jan-06 15:04:05 MST"

/-- `time.ANSIC`. -/
def timeFormat2 : String := "Mon Jan _2 15:04:05 2006"

/-- `time.RFC3339`. -/
def timeFormat3 : String := "2006-01-02T15:04:05Z07:00"

/-- The `timeFormats` list of `parseTime`, in source order. -/
def timeFormats : List String := [timeFormat0, timeFormat1, timeFormat2, timeFormat3]

/-- `parseTime`: tries each layout in order via Go `time.Parse`
(abstracted as `tp layout text`, `none` meaning a parse error) and
returns the first success; `none` when every layout fails (the Go
version then returns the zero time together with the last error). -/
def parseTime (tp : String → String → Option GoTime) (text : String) : Option GoTime :=
  timeFormats.findSome? (fun layout => tp layout text)

/-- Provider-native errors of the COS SDK: `*cos.ErrorResponse` carrying
its `Code`, or any other error. -/
inductive ProviderErr where
  | errorResponse (code : String)
  | generic (msg : String)
  deriving DecidableEq, Repr

/-- Errors surfaced by the storage adapter: the shared not-found sentinel
`ErrNotFound`, or a provider error passed through. -/
inductive StorageErr where
  | errNotFound
  | provider (e : ProviderErr)
  deriving DecidableEq, Repr

/-- A stored COS object as seen through `Object.Get`: the
`Content-Length`, the body bytes, and the `Date` response header. -/
structure CosObject where
  contentLength : Int
  body : List Nat
  dateHeader : String
  deriving DecidableEq, Repr

/-- The remote object store: full object path to object. -/
def Store := List (String × CosObject)

/-- The wire operations the adapter issues against the COS SDK. -/
inductive CosOp where
  | objectGet (key : String)
  | objectDelete (key : String)
  | bucketGet (pfx delim : String)
  | objectPut (key : String)
  deriving DecidableEq, Repr

/-- Whether an operation transfers the object body from the provider:
modelled from the COS SDK, where `Object.Get` issues an HTTP GET that
downloads the body (unlike a HEAD). -/
def CosOp.fetchesBody : CosOp → Bool
  | .objectGet _ => true
  | _ => false

/-- Modelled from the provider's documented semantics: `Object.Get` on a
key absent from the bucket fails with a `*cos.ErrorResponse` whose code
is `NoSuchKey` (HTTP 404). -/
def objectGetModel (store : Store) (key : String) : Except ProviderErr CosObject :=
  match List.lookup key store with
  | some obj => Except.ok obj
  | none => Except.error (ProviderErr.errorResponse "NoSuchKey")

/-- Modelled from the provider's documented semantics: `Object.Delete` is
idempotent — deleting an absent object still succeeds (HTTP 204). -/
def objectDeleteModel (_store : Store) (_key : String) : Except ProviderErr Unit :=
  Except.ok ()

/-- The `cosFile` value the adapter hands to callers (it implements the
`RemoteFile` interface). -/
structure CosFile where
  size : Int
  lastModified : GoTime
  name : String
  deriving DecidableEq, Repr

/-- `COS.StatFile`: resolves the key against the configured path, issues
`Object.Get`, maps the provider error with code `NoSuchKey` to
`ErrNotFound`, ignores the `Date`-header parse error (`modifiedTime, _ :=
parseTime(...)`, leaving the zero time on failure), and otherwise passes
the provider error through.  The second component is the trace of SDK
operations issued; `name` carries the request URL path. -/
def COS.StatFile (tp : String → String → Option GoTime) (cfg : COSConfig)
    (store : Store) (key : String) : Except StorageErr CosFile × List CosOp :=
  match objectGetModel store (pathJoin [cfg.Path, key]) with
  | Except.error e =>
    match e with
    | ProviderErr.errorResponse code =>
      if code = "NoSuchKey" then
        (Except.error StorageErr.errNotFound, [CosOp.objectGet (pathJoin [cfg.Path, key])])
      else (Except.error (StorageErr.provider e), [CosOp.objectGet (pathJoin [cfg.Path, key])])
    | _ => (Except.error (StorageErr.provider e), [CosOp.objectGet (pathJoin [cfg.Path, key])])
  | Except.ok obj =>
    (Except.ok { size := obj.contentLength
                 lastModified := (parseTime tp obj.dateHeader).getD zeroTime
                 name := pathJoin [cfg.Path, key] },
     [CosOp.objectGet (pathJoin [cfg.Path, key])])

/-- `COS.DeleteFile`: issues `Object.Delete` at the resolved path and
returns the provider result unmapped (no not-found translation). -/
def COS.DeleteFile (cfg : COSConfig) (store : Store) (key : String) :
    Except StorageErr Unit × List CosOp :=
  match objectDeleteModel store (pathJoin [cfg.Path, key]) with
  | Except.error e =>
    (Except.error (StorageErr.provider e), [CosOp.objectDelete (pathJoin [cfg.Path, key])])
  | Except.ok _ => (Except.ok (), [CosOp.objectDelete (pathJoin [cfg.Path, key])])

/-- `COS.GetFileReader`: issues `Object.Get` at the resolved path and
returns the body; any provider error is passed through unmapped (no
not-found translation). -/
def COS.GetFileReader (cfg : COSConfig) (store : Store) (key : String) :
    Except StorageErr (List Nat) × List CosOp :=
  match objectGetModel store (pathJoin [cfg.Path, key]) with
  | Except.error e =>
    (Except.error (StorageErr.provider e), [CosOp.objectGet (pathJoin [cfg.Path, key])])
  | Except.ok obj => (Except.ok obj.body, [CosOp.objectGet (pathJoin [cfg.Path, key])])

/-- One object of the bucket namespace as listed by `Bucket.Get`: its
key, size, and `LastModified` string. -/
structure ObjEntry where
  Key : String
  Size : Int
  LastModified : String
  deriving DecidableEq, Repr

/-- The portion of `rest` up to and including the first `/`, when `rest`
contains one. -/
def firstSeg (rest : String) : Option String :=
  let cs := rest.toList
  if cs.contains (Char.ofNat 47) then
    some (String.mk (cs.takeWhile (fun c => c ≠ Char.ofNat 47)) ++ "/")
  else none

/-- Keep-first deduplication. -/
def dedupStr (l : List String) : List String :=
  l.foldl (fun acc x => if acc.contains x then acc else acc ++ [x]) []

/-- The result of `Bucket.Get`: rolled-up common path segments and the
directly listed objects. -/
structure BucketListResult where
  CommonPfxs : List String
  Contents : List ObjEntry

/-- Modelled from the spec (and the provider's S3-compatible listing
semantics): `Bucket.Get` with an empty delimiter returns every key under
the listing point; with delimiter `/` it stops at the next path-segment
boundary, rolling keys with a further `/` up into deduplicated common
path segments and listing the rest as objects.  The delimiter is `""` or
`"/"` in the source. -/
def bucketGetModel (ns : List ObjEntry) (pfx delim : String) : BucketListResult :=
  let matching := ns.filter (fun o => goHasLead o.Key pfx)
  if delim = "" then { CommonPfxs := [], Contents := matching }
  else
    { CommonPfxs :=
        dedupStr (matching.filterMap
          (fun o => (firstSeg (goDropChars o.Key pfx.toList.length)).map (fun seg => pfx ++ seg)))
      Contents := matching.filter (fun o => (firstSeg (goDropChars o.Key pfx.toList.length)).isNone) }

/-- One call of `Walk` to the visitor: `dir` for a `cosFile` built from
the `CommonPfxs` loop (name only), `file` for one built from the
`Contents` loop (name, size, parsed timestamp). -/
inductive WalkVisit where
  | dir (f : CosFile)
  | file (f : CosFile)
  deriving DecidableEq, Repr

/-- `COS.Walk`: joins the configured path with `cosPath`, picks delimiter
`/` unless recursive, lists the bucket, and visits each rolled-up common
segment as a directory entry and each listed object as a file entry,
trimming the joined path from the front of each name (`strings.TrimPrefix`).
The visitor's own error is ignored by the source, so the model returns the
full visit list. -/
def COS.Walk (tp : String → String → Option GoTime) (cfg : COSConfig)
    (ns : List ObjEntry) (cosPath : String) (recursuve : Bool) : List WalkVisit :=
  let pfx := pathJoin [cfg.Path, cosPath]
  let delimiter := if recursuve then "" else "/"
  let res := bucketGetModel ns pfx delimiter
  res.CommonPfxs.map
    (fun dir => WalkVisit.dir { size := 0, lastModified := zeroTime, name := goTrimLead dir pfx })
  ++ res.Contents.map
    (fun v => WalkVisit.file
      { size := v.Size
        lastModified := (parseTime tp v.LastModified).getD zeroTime
        name := goTrimLead v.Key pfx })

/-! ## `TableMetadata.Load` (src/pkg/metadata/load.go) -/

/-- `TableMetadata.Load`: reads the file, JSON-decodes it into the
receiver, and returns the byte length read; either failure returns size 0
with the error.  The read and decode steps are the external collaborators
(`ioutil.ReadFile`, `json.Unmarshal`); the receiver mutation on success is
irrelevant to the returned pair and is modelled as `Unit`. -/
def TableMetadataLoad (readFile : Except String (List Nat))
    (unmarshal : List Nat → Except String Unit) : Nat × Option String :=
  match readFile with
  | Except.error e => (0, some e)
  | Except.ok data =>
    match unmarshal data with
    | Except.error e => (0, some e)
    | Except.ok _ => (data.length, none)

/-! ## Concrete sample values used by witnesses and counterexamples -/

/-- External checks where every duration parses and every key pair loads. -/
def ext0 : ExternalChecks :=
  { parseDuration := fun _ => none, loadKeyPair := fun _ _ => none }

/-- The default configuration with the S3 compression format set to the
unsupported value `zip`. -/
def cfgZip : Config := { DefaultConfig with S3 := { DefaultConfig.S3 with CompressionFormat := "zip" } }

/-- The default configuration with an unrecognized remote-storage selector. -/
def cfgBogusSelector : Config :=
  { DefaultConfig with General := { DefaultConfig.General with RemoteStorage := "bogus" } }

/-- The default configuration with the S3 storage class spelled in lower case. -/
def cfgStandardLower : Config :=
  { DefaultConfig with S3 := { DefaultConfig.S3 with StorageClass := "standard" } }

/-- The default configuration with an invalid S3 storage class. -/
def cfgBogusSC : Config :=
  { DefaultConfig with S3 := { DefaultConfig.S3 with StorageClass := "bogus" } }

/-- A COS configuration with an empty path, as in the default config. -/
def cosCfg0 : COSConfig := DefaultConfig.COS

/-- A load environment whose file is absent and whose environment overlay
sets an unsupported compression format, so that only validation fails. -/
def envBadFormat : LoadEnv :=
  { readFile := Except.error { msg := "no such file", isNotExist := true }
    unmarshal := fun _ c => Except.ok c
    envProcess := fun c =>
      Except.ok { c with S3 := { c.S3 with CompressionFormat := "zip" } } }

/-- The two-key namespace of claim C1: `a/b/file1` and `a/c/file2`. -/
def nsC1 : List ObjEntry :=
  [{ Key := "a/b/file1", Size := 3, LastModified := "" },
   { Key := "a/c/file2", Size := 4, LastModified := "" }]

/-- A time parser for which no layout ever parses. -/
def tpNone : String → String → Option GoTime := fun _ _ => none

/-! ## Theorems -/

/-- Every value of the archive-extension table is non-empty and begins
with `tar`. -/
theorem archiveExtensions_value_tar (k v : String) (h : ArchiveExtensions k = some v) :
    v ≠ "" ∧ ∃ t, v = "tar" ++ t := by
  unfold ArchiveExtensions at h
  repeat' split at h
  all_goals first
    | exact Option.noConfusion h
    | (injection h with h2; subst h2
       refine ⟨by decide, ?_⟩
       first
         | exact ⟨"", rfl⟩
         | exact ⟨".lz4", rfl⟩
         | exact ⟨".bz2", rfl⟩
         | exact ⟨".gz", rfl⟩
         | exact ⟨".sz", rfl⟩
         | exact ⟨".xz", rfl⟩)

/-- On a recognized backend selector, the archive extension is the table
lookup of the effective compression format. -/
theorem getArchiveExtension_eq_lookup (cfg : Config)
    (hmem : cfg.General.RemoteStorage ∈ (["s3", "gcs", "cos", "ftp", "azblob"] : List String)) :
    cfg.GetArchiveExtension = (ArchiveExtensions cfg.GetCompressionFormat).getD "" := by
  simp only [List.mem_cons, List.not_mem_nil, or_false] at hmem
  unfold Config.GetArchiveExtension Config.GetCompressionFormat
  rcases hmem with h | h | h | h | h <;> rw [h] <;> simp

/-- C5: a configuration whose effective compression format is neither
`none` nor a key of the archive format table is rejected by
`ValidateConfig` with a message naming the offending format; an effective
format that is `none` or a table key passes the compression check. -/
theorem validateConfig_compression_format (ext : ExternalChecks) (cfg : Config) :
    (cfg.GetCompressionFormat ≠ "none" → ArchiveExtensions cfg.GetCompressionFormat = none →
      ValidateConfig ext cfg
        = some (sq ++ cfg.GetCompressionFormat ++ sq ++ " is unsupported compression format"))
    ∧ (cfg.GetCompressionFormat = "none" ∨ (ArchiveExtensions cfg.GetCompressionFormat).isSome = true →
      compressionCheck cfg = none) := by
  constructor
  · intro h1 h2
    have hcc : compressionCheck cfg
        = some (sq ++ cfg.GetCompressionFormat ++ sq ++ " is unsupported compression format") := by
      unfold compressionCheck
      rw [if_neg h1, h2]
      rfl
    unfold ValidateConfig
    rw [hcc]
  · intro h
    rcases h with h | h
    · unfold compressionCheck
      rw [if_pos h]
    · rcases Option.isSome_iff_exists.mp h with ⟨v, hv⟩
      simp [compressionCheck, hv]

/-- C5 witness: the default configuration with S3 compression format
`zip` is rejected with the message naming `zip`. -/
theorem validateConfig_compression_format_witness :
    ValidateConfig ext0 cfgZip = some ("\x27zip\x27 is unsupported compression format") :=
  (validateConfig_compression_format ext0 cfgZip).1 (by decide) rfl

/-- C6: once the compression and timeout checks pass and secure API mode
is off, `ValidateConfig` accepts exactly when the upper-cased S3 storage
class is one of the enumerated storage classes, and otherwise rejects
with the bad-storage-class message. -/
theorem validateConfig_storage_class (ext : ExternalChecks) (cfg : Config)
    (h1 : compressionCheck cfg = none)
    (h2 : ext.parseDuration cfg.ClickHouse.Timeout = none)
    (h3 : ext.parseDuration cfg.COS.Timeout = none)
    (h4 : ext.parseDuration cfg.FTP.Timeout = none)
    (h5 : cfg.API.Secure = false) :
    (ValidateConfig ext cfg = none ↔ goToUpper cfg.S3.StorageClass ∈ s3StorageClassValues)
    ∧ (goToUpper cfg.S3.StorageClass ∉ s3StorageClassValues →
        ValidateConfig ext cfg = some (badStorageClassMsg cfg.S3.StorageClass)) := by
  have hval : ValidateConfig ext cfg = storageClassCheck cfg := by
    unfold ValidateConfig
    rw [h1, h2, h3, h4]
    cases hsc : storageClassCheck cfg with
    | none => simp [h5]
    | some e => rfl
  have hmemb : (s3StorageClassValues.any fun sc => goToUpper cfg.S3.StorageClass == sc) = true
      ↔ goToUpper cfg.S3.StorageClass ∈ s3StorageClassValues := by
    rw [List.any_eq_true]
    constructor
    · rintro ⟨x, hx, hbx⟩
      rw [show goToUpper cfg.S3.StorageClass = x from beq_iff_eq.mp hbx]
      exact hx
    · intro hin
      exact ⟨_, hin, beq_self_eq_true _⟩
  constructor
  · rw [hval]
    unfold storageClassCheck
    constructor
    · intro hnone
      by_cases hb : (s3StorageClassValues.any fun sc => goToUpper cfg.S3.StorageClass == sc) = true
      · exact hmemb.mp hb
      · rw [if_neg hb] at hnone
        exact Option.noConfusion hnone
    · intro hin
      rw [if_pos (hmemb.mpr hin)]
  · intro hnotin
    rw [hval]
    unfold storageClassCheck
    rw [if_neg (fun hany => hnotin (hmemb.mp hany))]

/-- C6 witness: `standard` is accepted case-insensitively; `bogus` is
rejected with the error naming it. -/
theorem validateConfig_storage_class_witness :
    ValidateConfig ext0 cfgStandardLower = none
    ∧ ValidateConfig ext0 cfgBogusSC = some (badStorageClassMsg "bogus") := by
  constructor
  · exact (validateConfig_storage_class ext0 cfgStandardLower rfl rfl rfl rfl rfl).1.mpr
      (by decide)
  · exact (validateConfig_storage_class ext0 cfgBogusSC rfl rfl rfl rfl rfl).2 (by decide)

/-- C7 counterexample: on the unrecognized selector `bogus`, the archive
extension accessor returns the empty string, not `"unknown"`. -/
theorem getArchiveExtension_bogus_not_unknown :
    cfgBogusSelector.GetArchiveExtension = "" ∧ cfgBogusSelector.GetArchiveExtension ≠ "unknown" :=
  ⟨rfl, by decide⟩

/-- C7 amended: on an unrecognized selector, the effective compression
format is `"unknown"` and the archive extension is the empty string;
neither accessor defaults to any backend's value. -/
theorem derived_accessors_unrecognized_selector (cfg : Config)
    (h : cfg.General.RemoteStorage ∉ (["s3", "gcs", "cos", "ftp", "azblob", "none"] : List String)) :
    cfg.GetCompressionFormat = "unknown" ∧ cfg.GetArchiveExtension = "" := by
  simp only [List.mem_cons, List.not_mem_nil, or_false, not_or] at h
  obtain ⟨h1, h2, h3, h4, h5, h6⟩ := h
  unfold Config.GetCompressionFormat Config.GetArchiveExtension
  rw [if_neg h1, if_neg h2, if_neg h3, if_neg h4, if_neg h5, if_neg h6,
      if_neg h1, if_neg h2, if_neg h3, if_neg h4, if_neg h5]
  exact ⟨rfl, rfl⟩

/-- C7 amended witness: the two accessors at the selector `bogus`. -/
theorem derived_accessors_unrecognized_selector_witness :
    cfgBogusSelector.GetCompressionFormat = "unknown"
    ∧ cfgBogusSelector.GetArchiveExtension = "" :=
  derived_accessors_unrecognized_selector cfgBogusSelector (by decide)

/-- C9: on a configuration `ValidateConfig` accepts, the effective
compression format is `none` or a key of the archive-extension table, and
when it is not `none` and the selector is a recognized backend the
derived archive extension is a non-empty string beginning with `tar`. -/
theorem validated_config_format_invariant (ext : ExternalChecks) (cfg : Config)
    (h : ValidateConfig ext cfg = none) :
    (cfg.GetCompressionFormat = "none" ∨ (ArchiveExtensions cfg.GetCompressionFormat).isSome = true)
    ∧ (cfg.GetCompressionFormat ≠ "none" →
        cfg.General.RemoteStorage ∈ (["s3", "gcs", "cos", "ftp", "azblob"] : List String) →
        cfg.GetArchiveExtension ≠ "" ∧ ∃ t, cfg.GetArchiveExtension = "tar" ++ t) := by
  have hcc : compressionCheck cfg = none := by
    unfold ValidateConfig at h
    cases hq : compressionCheck cfg with
    | none => rfl
    | some e =>
      rw [hq] at h
      exact Option.noConfusion h
  have hkey : cfg.GetCompressionFormat = "none"
      ∨ (ArchiveExtensions cfg.GetCompressionFormat).isSome = true := by
    by_cases hn : cfg.GetCompressionFormat = "none"
    · exact Or.inl hn
    · right
      cases hq : ArchiveExtensions cfg.GetCompressionFormat with
      | none =>
        exfalso
        unfold compressionCheck at hcc
        rw [if_neg hn, hq] at hcc
        simp at hcc
      | some v => rfl
  refine ⟨hkey, ?_⟩
  intro hne hmem
  have hext := getArchiveExtension_eq_lookup cfg hmem
  rcases hkey with hnone | hsome
  · exact absurd hnone hne
  · rcases Option.isSome_iff_exists.mp hsome with ⟨v, hv⟩
    rw [hext, hv]
    simpa using archiveExtensions_value_tar cfg.GetCompressionFormat v hv

/-- C9 witness: the default configuration validates and derives the
extension `tar`. -/
theorem validated_config_format_invariant_witness :
    DefaultConfig.GetArchiveExtension ≠ ""
    ∧ ∃ t, DefaultConfig.GetArchiveExtension = "tar" ++ t :=
  (validated_config_format_invariant ext0 DefaultConfig rfl).2 (by decide) (by decide)

/-- C4 counterexample: a run whose validation stage fails still hands a
configuration value to the caller alongside the error. -/
theorem loadConfig_value_despite_validation_error :
    (LoadConfig ext0 envBadFormat).1.isSome = true
    ∧ (LoadConfig ext0 envBadFormat).2.isSome = true :=
  ⟨rfl, rfl⟩

/-- C4 amended: a failing file read (other than a missing file), a
failing yaml overlay, or a failing environment overlay makes `LoadConfig`
return an error and no configuration; when all three of those stages
succeed with overlaid configuration `cfg2`, `LoadConfig` returns
`cfg2` together with its validation result, so a validation failure
still hands the configuration value to the caller. -/
theorem loadConfig_stage_behavior (ext : ExternalChecks) (env : LoadEnv) :
    (∀ e, env.readFile = Except.error e → e.isNotExist = false →
        LoadConfig ext env = (none, some ("can" ++ sq ++ "t open config file: " ++ e.msg)))
    ∧ (∀ bytes e, readConfigYaml env = Except.ok bytes →
        env.unmarshal bytes DefaultConfig = Except.error e →
        LoadConfig ext env = (none, some ("can" ++ sq ++ "t parse config file: " ++ e)))
    ∧ (∀ bytes cfg1 e, readConfigYaml env = Except.ok bytes →
        env.unmarshal bytes DefaultConfig = Except.ok cfg1 →
        env.envProcess cfg1 = Except.error e →
        LoadConfig ext env = (none, some e))
    ∧ (∀ bytes cfg1 cfg2, readConfigYaml env = Except.ok bytes →
        env.unmarshal bytes DefaultConfig = Except.ok cfg1 →
        env.envProcess cfg1 = Except.ok cfg2 →
        LoadConfig ext env = (some cfg2, ValidateConfig ext cfg2)) := by
  refine ⟨?_, ?_, ?_, ?_⟩
  · intro e he hne
    have hy : readConfigYaml env
        = Except.error ("can" ++ sq ++ "t open config file: " ++ e.msg) := by
      unfold readConfigYaml
      rw [he]
      simp [hne]
    unfold LoadConfig
    rw [hy]
  · intro bytes e hy hu
    unfold LoadConfig
    rw [hy]
    simp [hu]
  · intro bytes cfg1 e hy hu he
    unfold LoadConfig
    rw [hy]
    simp [hu, he]
  · intro bytes cfg1 cfg2 hy hu he
    unfold LoadConfig
    rw [hy]
    simp [hu, he]

/-- C4 amended witness: in the bad-format run all three overlay stages
succeed, and `LoadConfig` returns the overlaid configuration together
with its (failing) validation result. -/
theorem loadConfig_stage_behavior_witness :
    LoadConfig ext0 envBadFormat = (some cfgZip, ValidateConfig ext0 cfgZip) :=
  (loadConfig_stage_behavior ext0 envBadFormat).2.2.2 [] DefaultConfig cfgZip rfl rfl rfl

/-- C10: `TableMetadata.Load` returns a non-nil error with size 0
exactly when the file read or the JSON decode fails, and on success
returns size equal to the byte length read with a nil error. -/
theorem tableMetadataLoad_size_and_error (rf : Except String (List Nat))
    (um : List Nat → Except String Unit) :
    (((TableMetadataLoad rf um).2.isSome = true ∧ (TableMetadataLoad rf um).1 = 0)
      ↔ ((∃ e, rf = Except.error e) ∨ (∃ d e, rf = Except.ok d ∧ um d = Except.error e)))
    ∧ (∀ d, rf = Except.ok d → um d = Except.ok () →
        TableMetadataLoad rf um = (d.length, none)) := by
  cases rf with
  | error e =>
    refine ⟨?_, ?_⟩
    · simp [TableMetadataLoad]
    · intro d hd
      exact Except.noConfusion hd
  | ok d =>
    cases hu : um d with
    | error e =>
      refine ⟨?_, ?_⟩
      · simp [TableMetadataLoad, hu]
      · intro d2 hd2 hok
        cases hd2
        rw [hu] at hok
        exact Except.noConfusion hok
    | ok u =>
      refine ⟨?_, ?_⟩
      · simp [TableMetadataLoad, hu]
      · intro d2 hd2 _
        cases hd2
        simp [TableMetadataLoad, hu]

/-- C10 witness: a successful three-byte read decodes and reports size 3
with no error. -/
theorem tableMetadataLoad_size_and_error_witness :
    TableMetadataLoad (Except.ok [1, 2, 3]) (fun _ => Except.ok ()) = (3, none) :=
  (tableMetadataLoad_size_and_error (Except.ok [1, 2, 3]) (fun _ => Except.ok ())).2
    [1, 2, 3] rfl rfl

/-- C8: `parseTime` tries the four layouts in their fixed order and
returns the first parse that succeeds (`none` when every layout fails);
and `StatFile` on an existing object succeeds regardless of the timestamp
parse outcome, substituting the zero time when no layout parses. -/
theorem parseTime_ordered_and_stat_lenient (tp : String → String → Option GoTime)
    (text : String) (cfg : COSConfig) (key : String) (obj : CosObject) (rest : Store) :
    parseTime tp text
      = ((tp timeFormat0 text).orElse fun _ =>
          ((tp timeFormat1 text).orElse fun _ =>
            ((tp timeFormat2 text).orElse fun _ => tp timeFormat3 text)))
    ∧ (COS.StatFile tp cfg ((pathJoin [cfg.Path, key], obj) :: rest) key).1
        = Except.ok { size := obj.contentLength
                      lastModified := (parseTime tp obj.dateHeader).getD zeroTime
                      name := pathJoin [cfg.Path, key] } := by
  constructor
  · unfold parseTime timeFormats
    cases h0 : tp timeFormat0 text <;> cases h1 : tp timeFormat1 text <;>
      cases h2 : tp timeFormat2 text <;> cases h3 : tp timeFormat3 text <;>
        simp [List.findSome?, h0, h1, h2, h3, Option.orElse]
  · unfold COS.StatFile objectGetModel
    simp [List.lookup]

/-- C3: for every key, `StatFile`'s operation trace is exactly one
`Object.Get` at the resolved path — a body-fetching GET — so the stat is
determined through a body download. -/
theorem statFile_issues_body_get (tp : String → String → Option GoTime)
    (cfg : COSConfig) (store : Store) (key : String) :
    (COS.StatFile tp cfg store key).2 = [CosOp.objectGet (pathJoin [cfg.Path, key])]
    ∧ CosOp.fetchesBody (CosOp.objectGet (pathJoin [cfg.Path, key])) = true := by
  refine ⟨?_, rfl⟩
  unfold COS.StatFile
  cases h : objectGetModel store (pathJoin [cfg.Path, key]) with
  | error e =>
    rcases e with code | m
    · by_cases hc : code = "NoSuchKey" <;> simp [h, hc]
    · simp [h]
  | ok obj => simp [h]

/-- C2 counterexample: `GetFileReader` on a missing key returns the raw
provider error, not the shared not-found sentinel. -/
theorem getFileReader_missing_not_sentinel :
    (COS.GetFileReader cosCfg0 [] "backup1").1
      = Except.error (StorageErr.provider (ProviderErr.errorResponse "NoSuchKey"))
    ∧ StorageErr.provider (ProviderErr.errorResponse "NoSuchKey") ≠ StorageErr.errNotFound :=
  ⟨rfl, by decide⟩

/-- C2 amended: on a key absent from the store, only `StatFile` maps the
provider's `NoSuchKey` to the sentinel `ErrNotFound`; `GetFileReader`
passes the provider error through unmapped, and `DeleteFile` returns the
provider's (idempotent-success) delete result. -/
theorem notFound_mapping_statfile_only (tp : String → String → Option GoTime)
    (cfg : COSConfig) (store : Store) (key : String)
    (h : List.lookup (pathJoin [cfg.Path, key]) store = none) :
    (COS.StatFile tp cfg store key).1 = Except.error StorageErr.errNotFound
    ∧ (COS.GetFileReader cfg store key).1
        = Except.error (StorageErr.provider (ProviderErr.errorResponse "NoSuchKey"))
    ∧ (COS.DeleteFile cfg store key).1 = Except.ok () := by
  have hg : objectGetModel store (pathJoin [cfg.Path, key])
      = Except.error (ProviderErr.errorResponse "NoSuchKey") := by
    unfold objectGetModel
    rw [h]
  refine ⟨?_, ?_, rfl⟩
  · unfold COS.StatFile
    rw [hg]
    rfl
  · unfold COS.GetFileReader
    rw [hg]

/-- C2 amended witness: the three operations on the empty store. -/
theorem notFound_mapping_statfile_only_witness :
    (COS.StatFile tpNone cosCfg0 [] "backup1").1 = Except.error StorageErr.errNotFound
    ∧ (COS.GetFileReader cosCfg0 [] "backup1").1
        = Except.error (StorageErr.provider (ProviderErr.errorResponse "NoSuchKey"))
    ∧ (COS.DeleteFile cosCfg0 [] "backup1").1 = Except.ok () :=
  notFound_mapping_statfile_only tpNone cosCfg0 [] "backup1" rfl

/-- C1: over the namespace `a/b/file1`, `a/c/file2` with prefix `a/`,
the non-recursive walk visits exactly one directory entry, named `/`
(not two entries `b/` and `c/`), and the recursive walk visits the two
files under the names `/b/file1` and `/c/file2` (with a leading slash),
because `path.Join` strips the trailing slash from the prefix before
listing and name trimming. -/
theorem cos_walk_two_keys_eval :
    COS.Walk tpNone cosCfg0 nsC1 "a/" false
      = [WalkVisit.dir { size := 0, lastModified := zeroTime, name := "/" }]
    ∧ COS.Walk tpNone cosCfg0 nsC1 "a/" true
      = [WalkVisit.file { size := 3, lastModified := zeroTime, name := "/b/file1" },
         WalkVisit.file { size := 4, lastModified := zeroTime, name := "/c/file2" }] :=
  ⟨rfl, rfl⟩

end CHB
